import Mathlib

/-!
# Verification of the CS401 image-filter benchmark suite

Shallow embedding of the four execution backends of the repository
(`cpu_single.cpp` sequential part, `cpu_single.cpp` OpenMP part, the CUDA
kernels of `filters.cuh` (embedded in `temp.cpp`) together with their hosts
`main.cu` / `gpu.cu`, and the MPI backend `cpu_mpi.cpp`), and proofs about
the properties stated in the specification.

Conventions of the embedding:
* `unsigned char` pixel values are `ℕ` (always `< 256` in reachable states);
* `float` arithmetic on the pixel path is embedded as exact arithmetic.
  The decimal coefficients of the source (`0.299f`, `0.587f`, `0.114f`)
  become the exact rationals `299/1000`, `587/1000`, `114/1000`; a weighted
  sum is represented by its integer numerator over the denominator `1000`,
  so that every definition kernel-evaluates.  Floating rounding of `float`
  products is below `2^-20` relative here and never crosses the integer
  thresholds used in the theorems (checked for the concrete scenario
  pixels of the specification);
* casting a non-negative `float` to `unsigned char`
  (`static_cast<unsigned char>`) truncates, which for a value `n/1000` is
  the natural division `n / 1000` (`⌊x/k⌋ = ⌊⌊x⌋/k⌋`);
* `sqrtf` composed with the truncating cast is embedded through `Nat.sqrt`
  (`⌊√x⌋ = Nat.sqrt ⌊x⌋` on naturals, and `⌊√x + 1/2⌋ = (Nat.sqrt (4x)+1)/2`);
* buffers are total functions `ℤ → ℕ`: the C code indexes raw pointers with
  `int` expressions.  Whether an index expression stays inside the bounds
  of the `std::vector` it is applied to is modelled separately (see the
  `HaloAccess` model below), because `cpu_mpi.cpp` does index its halo
  vectors out of bounds.
-/

namespace ImageBench

/-! ## Grayscale pixel kernels

`cpu_single.cpp` line 66 (sequential), line 355 (OpenMP copy) and
`filters.cuh` `grayscale_kernel`:
  `out = static_cast<unsigned char>(0.299f*r + 0.587f*g + 0.114f*b);`
`cpu_mpi.cpp` `to_gray_uc` (lines 28–33):
  `float gray = 0.299f*r + 0.587f*g + 0.114f*b;`
  `int gi = (int)(gray + 0.5f); if (gi<0) gi=0; if (gi>255) gi=255;`
-/

/-- Numerator of the luma weighted sum: `1000 * (0.299r + 0.587g + 0.114b)`. -/
def lumaNum (r g b : ℕ) : ℕ :=
  299 * r + 587 * g + 114 * b

/-- The luma weighted sum itself, exact over `ℚ`. -/
def lumaQ (r g b : ℕ) : ℚ :=
  299/1000 * r + 587/1000 * g + 114/1000 * b

/-- Grayscale pixel of the sequential backend (`apply_grayscale`,
`cpu_single.cpp` line 66): the weighted sum is truncated by the
`unsigned char` cast — no rounding, no clamping. -/
def seqGrayPx (r g b : ℕ) : ℕ :=
  lumaNum r g b / 1000

/-- Grayscale pixel of the OpenMP backend (`apply_grayscale`, OpenMP copy in
`cpu_single.cpp` line 355); textually the same expression as the sequential
one. -/
def ompGrayPx (r g b : ℕ) : ℕ :=
  lumaNum r g b / 1000

/-- Grayscale pixel of the CUDA backend (`grayscale_kernel` in
`filters.cuh`); the same truncating cast as the sequential backend. -/
def gpuGrayPx (r g b : ℕ) : ℕ :=
  lumaNum r g b / 1000

/-- `to_gray_uc` of `cpu_mpi.cpp`: `(int)(gray + 0.5f)` is the floor of
`gray + 1/2`, i.e. `(lumaNum + 500) / 1000`; the lower clamp `gi < 0` never
fires (the sum is non-negative), the upper clamp is the `min`. -/
def to_gray_uc (r g b : ℕ) : ℕ :=
  min 255 ((lumaNum r g b + 500) / 1000)

/-- Modelled from the spec: `grayscale(r,g,b) = round(0.299r + 0.587g +
0.114b), clamped to [0,255]` with `round` half-up (the spec computes
`round(0.587*255) = 150`). -/
def specRoundGray (r g b : ℕ) : ℕ :=
  min 255 ⌊lumaQ r g b + 1/2⌋₊

lemma lumaQ_eq_div (r g b : ℕ) :
    lumaQ r g b = (lumaNum r g b : ℚ) / 1000 := by
  unfold lumaQ lumaNum
  push_cast
  ring

lemma seqGrayPx_eq_floor (r g b : ℕ) :
    seqGrayPx r g b = ⌊lumaQ r g b⌋₊ := by
  rw [lumaQ_eq_div, show ((1000 : ℚ)) = ((1000 : ℕ) : ℚ) by norm_num,
    Nat.floor_div_nat, Nat.floor_natCast]
  rfl

lemma to_gray_uc_eq_round (r g b : ℕ) :
    to_gray_uc r g b = specRoundGray r g b := by
  unfold to_gray_uc specRoundGray
  congr 1
  have h : lumaQ r g b + 1/2 = ((lumaNum r g b + 500 : ℕ) : ℚ) / (1000 : ℕ) := by
    rw [lumaQ_eq_div]
    push_cast
    ring
  rw [h, Nat.floor_div_nat, Nat.floor_natCast]

/-! ## Row partition of the MPI backend

`cpu_mpi.cpp`, lines 65–77 (identical in `mpi_grayscale`, `mpi_sobel`,
`mpi_gaussian`):
  `int base = height/size, rem = height%size;`
  `int myrows = base + (rank<rem ? 1 : 0);`
with displacements accumulated in rank order starting from offset 0. -/

/-- Number of rows assigned to worker `r` out of `size` workers. -/
def rowCount (height size r : ℕ) : ℕ :=
  height / size + (if r < height % size then 1 else 0)

/-- First row of worker `r`: the running offset of the `displs` loop. -/
def rowStart (height size : ℕ) : ℕ → ℕ
  | 0 => 0
  | r + 1 => rowStart height size r + rowCount height size r

lemma rowStart_closed (height size n : ℕ) :
    rowStart height size n = n * (height / size) + min n (height % size) := by
  induction n with
  | zero => simp [rowStart]
  | succ k ih =>
    rw [rowStart, ih, rowCount, Nat.succ_mul]
    rcases lt_or_ge k (height % size) with hk | hk
    · rw [if_pos hk, min_eq_left (Nat.le_of_lt hk),
        min_eq_left (Nat.succ_le_of_lt hk)]
      omega
    · rw [if_neg (not_lt.mpr hk), min_eq_right hk,
        min_eq_right (le_trans hk (Nat.le_succ k))]
      omega

lemma rowStart_size (height size : ℕ) (h : 0 < size) :
    rowStart height size size = height := by
  rw [rowStart_closed, min_eq_right (Nat.le_of_lt (Nat.mod_lt height h))]
  have := Nat.div_add_mod height size
  omega

lemma rowStart_mono (height size : ℕ) :
    Monotone (rowStart height size) := by
  apply monotone_nat_of_le_succ
  intro n
  rw [rowStart]
  exact Nat.le_add_right _ _

lemma rowStart_sum (height size n : ℕ) :
    rowStart height size n = ∑ r ∈ Finset.range n, rowCount height size r := by
  induction n with
  | zero => simp [rowStart]
  | succ k ih => rw [rowStart, ih, Finset.sum_range_succ]

/-! ## Boundary sampling and the Sobel filter

Sequential backend (`apply_sobel`, `cpu_single.cpp` lines 96–116; the OpenMP
copy at lines 386–407 and the CUDA `sobel_filter_kernel` of `filters.cuh`
are the same computation):
  `int nx = clamp(x + kx, 0, w - 1); int ny = clamp(y + ky, 0, h - 1);`
  `float gray = 0.299f*in[idx] + 0.587f*in[idx+1] + 0.114f*in[idx+2];`
  `gx += gray * kx_kernel[..]; gy += gray * ky_kernel[..];`
  `out = static_cast<unsigned char>(clamp_f(sqrt(gx*gx+gy*gy), 0, 255));`
-/

/-- `clamp(v, 0, n-1)` of `cpu_single.cpp` line 53 (and the
`min(max(v,0),n-1)` of `filters.cuh`). -/
def clampCoord (v n : ℤ) : ℤ :=
  min (max v 0) (n - 1)

/-- Flat buffer index of channel `c` of the clamped sample at `(x, y)`:
`(ny * w + nx) * 3 + c` (the backends always load with 3 input channels). -/
def seqSampleIdx (w h x y c : ℤ) : ℤ :=
  (clampCoord y h * w + clampCoord x w) * 3 + c

/-- Luma numerator of the clamped RGB sample at `(x, y)` of buffer `inB`
(`1000 * gray` of the source). -/
def seqSampleNum (inB : ℤ → ℕ) (w h x y : ℤ) : ℕ :=
  lumaNum (inB (seqSampleIdx w h x y 0)) (inB (seqSampleIdx w h x y 1))
    (inB (seqSampleIdx w h x y 2))

/-- `sobel_x` of `cpu_single.cpp` line 48 / `cpu_mpi.cpp` line 186
(row-major 3×3). -/
def sobelX (i : ℕ) : ℤ :=
  [-1, 0, 1, -2, 0, 2, -1, 0, 1].getD i 0

/-- `sobel_y` of `cpu_single.cpp` line 49 / `cpu_mpi.cpp` line 187. -/
def sobelY (i : ℕ) : ℤ :=
  [-1, -2, -1, 0, 0, 0, 1, 2, 1].getD i 0

/-- `1000 * gx` of `apply_sobel`: the loops `for ky in -1..1, kx in -1..1`
accumulate `gray * kx_kernel[(ky+1)*3 + (kx+1)]`. -/
def seqSobelGxNum (inB : ℤ → ℕ) (w h x y : ℤ) : ℤ :=
  ∑ ky ∈ Finset.range 3, ∑ kx ∈ Finset.range 3,
    (seqSampleNum inB w h (x + kx - 1) (y + ky - 1) : ℤ) * sobelX (ky * 3 + kx)

/-- `1000 * gy` of `apply_sobel`. -/
def seqSobelGyNum (inB : ℤ → ℕ) (w h x y : ℤ) : ℤ :=
  ∑ ky ∈ Finset.range 3, ∑ kx ∈ Finset.range 3,
    (seqSampleNum inB w h (x + kx - 1) (y + ky - 1) : ℤ) * sobelY (ky * 3 + kx)

/-- Sequential Sobel output pixel:
`static_cast<unsigned char>(clamp_f(sqrt(gx*gx+gy*gy), 0, 255))`, i.e.
`min 255 ⌊√(gx² + gy²)⌋`; with `gx = gxNum/1000` this is
`min 255 (Nat.sqrt (gxNum² + gyNum²) / 1000)` by `⌊√x⌋ = Nat.sqrt ⌊x⌋` and
`⌊x/k⌋ = ⌊⌊x⌋/k⌋`. -/
def seqSobelPx (inB : ℤ → ℕ) (w h x y : ℤ) : ℕ :=
  min 255
    (Nat.sqrt ((seqSobelGxNum inB w h x y ^ 2 +
      seqSobelGyNum inB w h x y ^ 2).toNat) / 1000)

/-! ## The MPI Sobel filter with halo rows

`cpu_mpi.cpp` `mpi_sobel` (lines 125–235).  The rank owns `myrows` rows of
grayscale bytes (`local_gray`), and the one-row halo vectors `top` and
`bottom` are filled by `MPI_Sendrecv` from the neighbouring ranks.  A rank
with no neighbour passes `MPI_PROC_NULL`, which turns the receive into a
no-op: the vector keeps the zeros of its value initialisation
(`std::vector<unsigned char> top(width), bottom(width)`).

  `auto get_gray = [&](int y, int x) -> unsigned char {`
  `  if (y < 0) return top[x];`
  `  if (y >= myrows) return bottom[x];`
  `  if (x < 0) x = 0; if (x >= width) x = width - 1;`
  `  return local_gray[y*width + x]; };`

Note the halo branches return before `x` is clamped. -/

/-- `get_gray` of `mpi_sobel` (lines 189–194), on total buffers. -/
def mpiGetGray (localGray top bottom : ℤ → ℕ) (myrows width y x : ℤ) : ℕ :=
  if y < 0 then top x
  else if myrows ≤ y then bottom x
  else localGray (y * width + clampCoord x width)

/-- The zero-filled halo buffer of a rank whose neighbour is
`MPI_PROC_NULL`. -/
def zeroRow : ℤ → ℕ :=
  fun _ => 0

/-- `gx` of `mpi_sobel` (an exact integer: bytes times the `int` kernel
`kx[9]`). -/
def mpiSobelGx (localGray top bottom : ℤ → ℕ) (myrows width y x : ℤ) : ℤ :=
  ∑ ky ∈ Finset.range 3, ∑ kx ∈ Finset.range 3,
    (mpiGetGray localGray top bottom myrows width (y + ky - 1) (x + kx - 1) : ℤ) *
      sobelX (ky * 3 + kx)

/-- `gy` of `mpi_sobel`. -/
def mpiSobelGy (localGray top bottom : ℤ → ℕ) (myrows width y x : ℤ) : ℤ :=
  ∑ ky ∈ Finset.range 3, ∑ kx ∈ Finset.range 3,
    (mpiGetGray localGray top bottom myrows width (y + ky - 1) (x + kx - 1) : ℤ) *
      sobelY (ky * 3 + kx)

/-- MPI Sobel output pixel: `clamp_uc(sqrt(gx*gx + gy*gy))`, i.e.
`min 255 ⌊√s + 1/2⌋`; `⌊√s + 1/2⌋ = (Nat.sqrt (4s) + 1) / 2` for `s : ℕ`
(`⌊(2√s+1)/2⌋ = (⌊√(4s)⌋+1)/2`). -/
def mpiSobelPx (localGray top bottom : ℤ → ℕ) (myrows width y x : ℤ) : ℕ :=
  min 255
    ((Nat.sqrt (4 * (mpiSobelGx localGray top bottom myrows width y x ^ 2 +
        mpiSobelGy localGray top bottom myrows width y x ^ 2).toNat) + 1) / 2)

/-- A uniform-colour RGB buffer: channel interleaved `r, g, b, r, g, b, …`
at every pixel. -/
def uniformRGB (r g b : ℕ) : ℤ → ℕ :=
  fun i => if i % 3 = 0 then r else if i % 3 = 1 then g else b

lemma uniformRGB_sample (r g b : ℕ) (w h x y : ℤ) :
    seqSampleNum (uniformRGB r g b) w h x y = lumaNum r g b := by
  unfold seqSampleNum seqSampleIdx uniformRGB
  set m := clampCoord y h * w + clampCoord x w with hm
  have h0 : (m * 3 + 0) % 3 = 0 := by omega
  have h1 : (m * 3 + 1) % 3 = 1 := by omega
  have h2 : (m * 3 + 2) % 3 = 2 := by omega
  rw [if_pos h0, if_neg (by omega), if_pos h1, if_neg (by omega),
    if_neg (by omega)]

lemma sqrt_eval {n q : ℕ} (h1 : q * q ≤ n) (h2 : n < (q + 1) * (q + 1)) :
    Nat.sqrt n = q :=
  le_antisymm (Nat.le_of_lt_succ (Nat.sqrt_lt.2 h2)) (Nat.le_sqrt.2 h1)

lemma sumSobelX :
    (∑ ky ∈ Finset.range 3, ∑ kx ∈ Finset.range 3, sobelX (ky * 3 + kx)) = 0 := by
  decide

lemma sumSobelY :
    (∑ ky ∈ Finset.range 3, ∑ kx ∈ Finset.range 3, sobelY (ky * 3 + kx)) = 0 := by
  decide

lemma seqSobelGxNum_uniform (r g b : ℕ) (w h x y : ℤ) :
    seqSobelGxNum (uniformRGB r g b) w h x y = 0 := by
  unfold seqSobelGxNum
  rw [Finset.sum_congr rfl (fun ky _ => Finset.sum_congr rfl (fun kx _ => by
    rw [uniformRGB_sample]))]
  rw [show (∑ ky ∈ Finset.range 3, ∑ kx ∈ Finset.range 3,
      (lumaNum r g b : ℤ) * sobelX (ky * 3 + kx)) =
      (lumaNum r g b : ℤ) * ∑ ky ∈ Finset.range 3, ∑ kx ∈ Finset.range 3,
        sobelX (ky * 3 + kx) by simp [Finset.mul_sum]]
  rw [sumSobelX, mul_zero]

lemma seqSobelGyNum_uniform (r g b : ℕ) (w h x y : ℤ) :
    seqSobelGyNum (uniformRGB r g b) w h x y = 0 := by
  unfold seqSobelGyNum
  rw [Finset.sum_congr rfl (fun ky _ => Finset.sum_congr rfl (fun kx _ => by
    rw [uniformRGB_sample]))]
  rw [show (∑ ky ∈ Finset.range 3, ∑ kx ∈ Finset.range 3,
      (lumaNum r g b : ℤ) * sobelY (ky * 3 + kx)) =
      (lumaNum r g b : ℤ) * ∑ ky ∈ Finset.range 3, ∑ kx ∈ Finset.range 3,
        sobelY (ky * 3 + kx) by simp [Finset.mul_sum]]
  rw [sumSobelY, mul_zero]

/-- On a uniform image the sequential Sobel output vanishes everywhere,
boundary pixels included. -/
lemma seqSobelPx_uniform (r g b : ℕ) (w h x y : ℤ) :
    seqSobelPx (uniformRGB r g b) w h x y = 0 := by
  unfold seqSobelPx
  rw [seqSobelGxNum_uniform, seqSobelGyNum_uniform]
  simp [Nat.sqrt_zero]

lemma mpiGetGray_const (v : ℕ) (t b : ℤ → ℕ) (myrows width y x : ℤ)
    (h0 : 0 ≤ y) (h1 : y < myrows) :
    mpiGetGray (fun _ => v) t b myrows width y x = v := by
  unfold mpiGetGray
  rw [if_neg (by omega), if_neg (by omega)]

/-- Away from the halo rows the MPI Sobel output on constant gray data
vanishes. -/
lemma mpiSobelPx_const_interior (v : ℕ) (t b : ℤ → ℕ) (myrows width y x : ℤ)
    (h1 : 1 ≤ y) (h2 : y + 1 < myrows) :
    mpiSobelPx (fun _ => v) t b myrows width y x = 0 := by
  have key : ∀ ky : ℤ, 0 ≤ ky → ky ≤ 2 → ∀ x',
      mpiGetGray (fun _ => v) t b myrows width (y + ky - 1) x' = v := by
    intro ky hk1 hk2 x'
    exact mpiGetGray_const v t b myrows width _ x' (by omega) (by omega)
  have hx : mpiSobelGx (fun _ => v) t b myrows width y x = 0 := by
    unfold mpiSobelGx
    rw [Finset.sum_congr rfl (fun ky hky => Finset.sum_congr rfl (fun kx _ => by
      have hky3 := Finset.mem_range.mp hky
      rw [key (ky : ℤ) (by omega) (by omega)]))]
    rw [show (∑ ky ∈ Finset.range 3, ∑ kx ∈ Finset.range 3,
        (v : ℤ) * sobelX (ky * 3 + kx)) =
        (v : ℤ) * ∑ ky ∈ Finset.range 3, ∑ kx ∈ Finset.range 3,
          sobelX (ky * 3 + kx) by simp [Finset.mul_sum]]
    rw [sumSobelX, mul_zero]
  have hy : mpiSobelGy (fun _ => v) t b myrows width y x = 0 := by
    unfold mpiSobelGy
    rw [Finset.sum_congr rfl (fun ky hky => Finset.sum_congr rfl (fun kx _ => by
      have hky3 := Finset.mem_range.mp hky
      rw [key (ky : ℤ) (by omega) (by omega)]))]
    rw [show (∑ ky ∈ Finset.range 3, ∑ kx ∈ Finset.range 3,
        (v : ℤ) * sobelY (ky * 3 + kx)) =
        (v : ℤ) * ∑ ky ∈ Finset.range 3, ∑ kx ∈ Finset.range 3,
          sobelY (ky * 3 + kx) by simp [Finset.mul_sum]]
    rw [sumSobelY, mul_zero]
  unfold mpiSobelPx
  rw [hx, hy]
  simp [Nat.sqrt_zero]

/-- Top output row of rank 0 on an all-white image: the zero-filled `top`
halo makes the vertical gradient `gy = 1020`, so the output is 255. -/
lemma mpiSobelPx_white_topRow :
    mpiSobelPx (fun _ => to_gray_uc 255 255 255) zeroRow zeroRow 3 3 0 1 = 255 := by
  have hx : mpiSobelGx (fun _ => to_gray_uc 255 255 255) zeroRow zeroRow 3 3 0 1 = 0 := by
    decide
  have hy : mpiSobelGy (fun _ => to_gray_uc 255 255 255) zeroRow zeroRow 3 3 0 1 = 1020 := by
    decide
  unfold mpiSobelPx
  rw [hx, hy]
  have h4 : (4 * (((0 : ℤ) ^ 2 + 1020 ^ 2).toNat)) = 4161600 := by decide
  rw [h4, sqrt_eval (q := 2040) (by norm_num) (by norm_num)]
  decide

/-! ## Gaussian kernel weight tables

Exact numerators of the float literals of the source tables.
`GAUSSIAN_9x9` entries are decimals with 10 fractional digits (scale
`10^10`), `GAUSSIAN_27x27` entries have 8 fractional digits (scale
`10^8`). -/

/-- `GAUSSIAN_9x9` of `cpu_mpi.cpp` lines 246–256 (identical table in
`gpu.cu` lines 52–62), row-major 9×9, numerators over `10^10`. -/
def GAUSSIAN_9x9 : List ℕ := [
  116788635, 119232554, 121009460, 122088289, 122450031, 122088289, 121009460, 119232554, 116788635,
  119232554, 121727614, 123541704, 124643108, 125012421, 124643108, 123541704, 121727614, 119232554,
  121009460, 123541704, 125382828, 126500647, 126875463, 126500647, 125382828, 123541704, 121009460,
  122088289, 124643108, 126500647, 127628431, 128006589, 127628431, 126500647, 124643108, 122088289,
  122450031, 125012421, 126875463, 128006589, 128385867, 128006589, 126875463, 125012421, 122450031,
  122088289, 124643108, 126500647, 127628431, 128006589, 127628431, 126500647, 124643108, 122088289,
  121009460, 123541704, 125382828, 126500647, 126875463, 126500647, 125382828, 123541704, 121009460,
  119232554, 121727614, 123541704, 124643108, 125012421, 124643108, 123541704, 121727614, 119232554,
  116788635, 119232554, 121009460, 122088289, 122450031, 122088289, 121009460, 119232554, 116788635]

/-- `GAUSSIAN_27x27` of the OpenMP part of `cpu_single.cpp` (lines 306–335;
identical table in `main.cu` lines 55–84), row-major 27×27, numerators over
`10^8`. -/
def GAUSSIAN_27x27 : List ℕ := [
  70489, 75901, 81245, 86453, 91452, 96170, 100534, 104476, 107932,
  110844, 113164, 114850, 115874, 116217, 115874, 114850, 113164, 110844,
  107932, 104476, 100534, 96170, 91452, 86453, 81245, 75901, 70489,
  75901, 81728, 87482, 93090, 98473, 103552, 108251, 112496, 116217,
  119353, 121851, 123667, 124769, 125139, 124769, 123667, 121851, 119353,
  116217, 112496, 108251, 103552, 98473, 93090, 87482, 81728, 75901,
  81245, 87482, 93643, 99645, 105407, 110844, 115874, 120418, 124401,
  127758, 130431, 132375, 133555, 133951, 133555, 132375, 130431, 127758,
  124401, 120418, 115874, 110844, 105407, 99645, 93643, 87482, 81245,
  86453, 93090, 99645, 106033, 112164, 117949, 123302, 128136, 132375,
  135947, 138792, 140860, 142116, 142537, 142116, 140860, 138792, 135947,
  132375, 128136, 123302, 117949, 112164, 106033, 99645, 93090, 86453,
  91452, 98473, 105407, 112164, 118649, 124769, 130431, 135546, 140029,
  143808, 146817, 149005, 150334, 150779, 150334, 149005, 146817, 143808,
  140029, 135546, 130431, 124769, 118649, 112164, 105407, 98473, 91452,
  96170, 103552, 110844, 117949, 124769, 131205, 137159, 142537, 147252,
  151226, 154391, 156691, 158088, 158557, 158088, 156691, 154391, 151226,
  147252, 142537, 137159, 131205, 124769, 117949, 110844, 103552, 96170,
  100534, 108251, 115874, 123302, 130431, 137159, 143383, 149005, 153934,
  158088, 161397, 163802, 165262, 165752, 165262, 163802, 161397, 158088,
  153934, 149005, 143383, 137159, 130431, 123302, 115874, 108251, 100534,
  104476, 112496, 120418, 128136, 135546, 142537, 149005, 154848, 159970,
  164287, 167725, 170225, 171742, 172251, 171742, 170225, 167725, 164287,
  159970, 154848, 149005, 142537, 135546, 128136, 120418, 112496, 104476,
  107932, 116217, 124401, 132375, 140029, 147252, 153934, 159970, 165262,
  169722, 173273, 175856, 177423, 177949, 177423, 175856, 173273, 169722,
  165262, 159970, 153934, 147252, 140029, 132375, 124401, 116217, 107932,
  110844, 119353, 127758, 135947, 143808, 151226, 158088, 164287, 169722,
  174302, 177949, 180601, 182211, 182751, 182211, 180601, 177949, 174302,
  169722, 164287, 158088, 151226, 143808, 135947, 127758, 119353, 110844,
  113164, 121851, 130431, 138792, 146817, 154391, 161397, 167725, 173273,
  177949, 181673, 184380, 186024, 186575, 186024, 184380, 181673, 177949,
  173273, 167725, 161397, 154391, 146817, 138792, 130431, 121851, 113164,
  114850, 123667, 132375, 140860, 149005, 156691, 163802, 170225, 175856,
  180601, 184380, 187128, 188796, 189356, 188796, 187128, 184380, 180601,
  175856, 170225, 163802, 156691, 149005, 140860, 132375, 123667, 114850,
  115874, 124769, 133555, 142116, 150334, 158088, 165262, 171742, 177423,
  182211, 186024, 188796, 190480, 191044, 190480, 188796, 186024, 182211,
  177423, 171742, 165262, 158088, 150334, 142116, 133555, 124769, 115874,
  116217, 125139, 133951, 142537, 150779, 158557, 165752, 172251, 177949,
  182751, 186575, 189356, 191044, 191610, 191044, 189356, 186575, 182751,
  177949, 172251, 165752, 158557, 150779, 142537, 133951, 125139, 116217,
  115874, 124769, 133555, 142116, 150334, 158088, 165262, 171742, 177423,
  182211, 186024, 188796, 190480, 191044, 190480, 188796, 186024, 182211,
  177423, 171742, 165262, 158088, 150334, 142116, 133555, 124769, 115874,
  114850, 123667, 132375, 140860, 149005, 156691, 163802, 170225, 175856,
  180601, 184380, 187128, 188796, 189356, 188796, 187128, 184380, 180601,
  175856, 170225, 163802, 156691, 149005, 140860, 132375, 123667, 114850,
  113164, 121851, 130431, 138792, 146817, 154391, 161397, 167725, 173273,
  177949, 181673, 184380, 186024, 186575, 186024, 184380, 181673, 177949,
  173273, 167725, 161397, 154391, 146817, 138792, 130431, 121851, 113164,
  110844, 119353, 127758, 135947, 143808, 151226, 158088, 164287, 169722,
  174302, 177949, 180601, 182211, 182751, 182211, 180601, 177949, 174302,
  169722, 164287, 158088, 151226, 143808, 135947, 127758, 119353, 110844,
  107932, 116217, 124401, 132375, 140029, 147252, 153934, 159970, 165262,
  169722, 173273, 175856, 177423, 177949, 177423, 175856, 173273, 169722,
  165262, 159970, 153934, 147252, 140029, 132375, 124401, 116217, 107932,
  104476, 112496, 120418, 128136, 135546, 142537, 149005, 154848, 159970,
  164287, 167725, 170225, 171742, 172251, 171742, 170225, 167725, 164287,
  159970, 154848, 149005, 142537, 135546, 128136, 120418, 112496, 104476,
  100534, 108251, 115874, 123302, 130431, 137159, 143383, 149005, 153934,
  158088, 161397, 163802, 165262, 165752, 165262, 163802, 161397, 158088,
  153934, 149005, 143383, 137159, 130431, 123302, 115874, 108251, 100534,
  96170, 103552, 110844, 117949, 124769, 131205, 137159, 142537, 147252,
  151226, 154391, 156691, 158088, 158557, 158088, 156691, 154391, 151226,
  147252, 142537, 137159, 131205, 124769, 117949, 110844, 103552, 96170,
  91452, 98473, 105407, 112164, 118649, 124769, 130431, 135546, 140029,
  143808, 146817, 149005, 150334, 150779, 150334, 149005, 146817, 143808,
  140029, 135546, 130431, 124769, 118649, 112164, 105407, 98473, 91452,
  86453, 93090, 99645, 106033, 112164, 117949, 123302, 128136, 132375,
  135947, 138792, 140860, 142116, 142537, 142116, 140860, 138792, 135947,
  132375, 128136, 123302, 117949, 112164, 106033, 99645, 93090, 86453,
  81245, 87482, 93643, 99645, 105407, 110844, 115874, 120418, 124401,
  127758, 130431, 132375, 133555, 133951, 133555, 132375, 130431, 127758,
  124401, 120418, 115874, 110844, 105407, 99645, 93643, 87482, 81245,
  75901, 81728, 87482, 93090, 98473, 103552, 108251, 112496, 116217,
  119353, 121851, 123667, 124769, 125139, 124769, 123667, 121851, 119353,
  116217, 112496, 108251, 103552, 98473, 93090, 87482, 81728, 75901,
  70489, 75901, 81245, 86453, 91452, 96170, 100534, 104476, 107932,
  110844, 113164, 114850, 115874, 116217, 115874, 114850, 113164, 110844,
  107932, 104476, 100534, 96170, 91452, 86453, 81245, 75901, 70489]

/-- The `GAUSSIAN_27x27` of the sequential part of `cpu_single.cpp`
(line 47): `{ /* ... your 729 values ... */ 0.00000102f }` — aggregate
initialisation sets element 0 to `0.00000102` and value-initialises the
remaining 728 elements to zero. -/
def GAUSSIAN_27x27_stub : List ℕ :=
  102 :: List.replicate 728 0

/-- Exact value of a kernel table sum at the given scale denominator. -/
def kernelSum (l : List ℕ) (scale : ℕ) : ℚ :=
  (l.sum : ℚ) / scale

/-- `sobel_x` as the literal table (squareness statements). -/
def sobelXTable : List ℤ :=
  [-1, 0, 1, -2, 0, 2, -1, 0, 1]

/-- `const int KERNEL_SIZE_GAUSSIAN = 27` of `cpu_single.cpp` line 132 /
line 423 and `main.cu` line 103. -/
def kernelSizeGaussianSeq : ℕ := 27

/-- `const int KERNEL_SIZE_GAUSSIAN = 9` of `gpu.cu` line 82; the MPI
backend likewise uses `const int K = 9` (`cpu_mpi.cpp` line 245). -/
def kernelSizeGaussianGpu : ℕ := 9

/-- `const int KERNEL_SIZE_SOBEL = 3`. -/
def kernelSizeSobel : ℕ := 3

/-! ## Buffer accesses of the MPI neighbour-sampling helpers

`get_gray` (`cpu_mpi.cpp` lines 189–194) and `get_rgb` (lines 309–314)
dispatch each sample to one of three `std::vector` buffers.  This model
records which buffer a call reads and at which index, so that the index
bounds can be examined: the halo branches return `top[x]` / `bottom[x]`
(resp. the `get_rgb` analogues) before `x` is clamped. -/

/-- A read of the MPI sampling helpers: buffer and flat index. -/
inductive HaloAccess where
  | top (i : ℤ)
  | bottom (i : ℤ)
  | loc (i : ℤ)
deriving DecidableEq

/-- The read performed by `get_gray y x` of `mpi_sobel`. -/
def sobelReadAccess (myrows width y x : ℤ) : HaloAccess :=
  if y < 0 then .top x
  else if myrows ≤ y then .bottom x
  else .loc (y * width + clampCoord x width)

/-- Bounds of the `mpi_sobel` buffers: `top(width)`, `bottom(width)`,
`local_gray(myrows*width)`. -/
def sobelAccessInBounds (myrows width : ℤ) : HaloAccess → Bool
  | .top i => decide (0 ≤ i ∧ i < width)
  | .bottom i => decide (0 ≤ i ∧ i < width)
  | .loc i => decide (0 ≤ i ∧ i < myrows * width)

/-- The read performed by `get_rgb y x c` of `mpi_gaussian` (halo radius
`R = 4`, 3 channels):
  `if (y < 0) return top[(R+y)*width*channels + x*channels + c];`
  `if (y >= myrows) return bottom[(y-myrows)*width*channels + x*channels + c];`
  `if (x<0) x=0; if (x>=width) x=width-1;`
  `return local_rgb[y*width*channels + x*channels + c];` -/
def gaussReadAccess (myrows width y x c : ℤ) : HaloAccess :=
  if y < 0 then .top ((4 + y) * width * 3 + x * 3 + c)
  else if myrows ≤ y then .bottom ((y - myrows) * width * 3 + x * 3 + c)
  else .loc (y * width * 3 + clampCoord x width * 3 + c)

/-- Bounds of the `mpi_gaussian` buffers: the halos hold
`width*channels*R = width*3*4` bytes, the local buffer
`myrows*width*channels`. -/
def gaussAccessInBounds (myrows width : ℤ) : HaloAccess → Bool
  | .top i => decide (0 ≤ i ∧ i < width * 3 * 4)
  | .bottom i => decide (0 ≤ i ∧ i < width * 3 * 4)
  | .loc i => decide (0 ≤ i ∧ i < myrows * width * 3)

/-! ## Batch processing of decode results

`cpu_single.cpp` lines 145–164 (same shape in the OpenMP copy and the CUDA
hosts): a file whose `stbi_load` returns null is reported and skipped with
`continue`, so it is never pushed into `images` — it contributes no output
image and no timing entry; the loop then proceeds with the remaining
files.  `cpu_mpi.cpp` lines 52–57: a null `stbi_load` on rank 0 calls
`MPI_Abort(MPI_COMM_WORLD, 1)`, terminating the entire group. -/

/-- The image list built by the single-process load loops, from the decode
results in directory order (`none` = decoder returned null). -/
def seqLoadBatch {α : Type} : List (Option α) → List α
  | [] => []
  | none :: rest => seqLoadBatch rest
  | some img :: rest => img :: seqLoadBatch rest

/-- Rank 0 of the MPI backend loading one image: a failed decode aborts the
whole group with code 1 (`MPI_Abort`), a successful one proceeds. -/
def mpiRank0Load {α : Type} : Option α → Except ℕ α
  | some img => .ok img
  | none => .error 1

/-! ## Directory enumeration

`cpu_mpi.cpp` lines 385–396: collect the paths whose extension is `.jpg`,
`.png` or `.jpeg`, then `std::sort(images.begin(), images.end())`
(lexicographic string order).  `cpu_single.cpp` lines 145–147 (same in
the OpenMP copy, `gpu.cu` and `main.cu`): iterate `fs::directory_iterator`
directly, skipping non-regular files, with no sort and no extension
filter.  Paths are modelled as character lists; the order on `List Char`
is the lexicographic string order. -/

/-- A directory entry: full path, extension, regular-file flag. -/
structure DirEntry where
  path : List Char
  ext : List Char
  isRegularFile : Bool
deriving DecidableEq

/-- The extension filter of `cpu_mpi.cpp` line 389. -/
def isImageExt (ext : List Char) : Bool :=
  ext == ['.', 'j', 'p', 'g'] || ext == ['.', 'p', 'n', 'g'] ||
    ext == ['.', 'j', 'p', 'e', 'g']

/-- The image list of the MPI backend: extension-filtered paths, sorted
(`std::sort` is modelled by insertion sort — any sorting algorithm yields
the same sorted permutation). -/
def mpiEnumerate (listing : List DirEntry) : List (List Char) :=
  List.insertionSort (· ≤ ·)
    ((listing.filter (fun e => isImageExt e.ext)).map DirEntry.path)

/-- The entries processed by the single-process backends, in directory
iteration order: regular files only, unsorted. -/
def seqEnumerate (listing : List DirEntry) : List DirEntry :=
  listing.filter (fun e => e.isRegularFile)

/-- Sample directory listing whose iteration order is not sorted:
`b.png` before `a.png`, plus a regular non-image file `c.txt`. -/
def sampleListing : List DirEntry :=
  [⟨['b', '.', 'p', 'n', 'g'], ['.', 'p', 'n', 'g'], true⟩,
   ⟨['a', '.', 'p', 'n', 'g'], ['.', 'p', 'n', 'g'], true⟩,
   ⟨['c', '.', 't', 'x', 't'], ['.', 't', 'x', 't'], true⟩]

/-! ## Output naming and channel counts

`cpu_single.cpp` line 188 (and the OpenMP copy line 481, `gpu.cu` line 165,
`main.cu` line 192): `outPath = output_folder / (img.name + "_" + op + ".png")`.
`cpu_mpi.cpp` lines 412–417: `outpath + "_gray.png"`, `outpath +
"_gaussian.png"`, `outpath + "_sobel.png"` where `outpath` ends in the stem.
Channel selection: `cpu_single.cpp` lines 136–137 (grayscale/sobel 1,
gaussian 3); the MPI writes pass 1, 1 and `channels = 3` respectively. -/

/-- The three filter operations. -/
inductive Operation where
  | grayscale
  | gaussian
  | sobel
deriving DecidableEq

/-- The operation string of the command line. -/
def opName : Operation → List Char
  | .grayscale => ['g', 'r', 'a', 'y', 's', 'c', 'a', 'l', 'e']
  | .gaussian => ['g', 'a', 'u', 's', 's', 'i', 'a', 'n']
  | .sobel => ['s', 'o', 'b', 'e', 'l']

/-- Output file name of the single-process backends:
`<stem> + "_" + <op> + ".png"` whatever the input extension was. -/
def seqOutName (stem : List Char) (op : Operation) : List Char :=
  stem ++ ['_'] ++ opName op ++ ['.', 'p', 'n', 'g']

/-- Output file name of the MPI backend. -/
def mpiOutName (stem : List Char) : Operation → List Char
  | .grayscale => stem ++ ['_', 'g', 'r', 'a', 'y', '.', 'p', 'n', 'g']
  | .gaussian =>
      stem ++ ['_', 'g', 'a', 'u', 's', 's', 'i', 'a', 'n', '.', 'p', 'n', 'g']
  | .sobel => stem ++ ['_', 's', 'o', 'b', 'e', 'l', '.', 'p', 'n', 'g']

/-- Modelled from the spec: output named `<stem>_<operation>.<ext>` with
the extension matching the input. -/
def specOutName (stem ext : List Char) (op : Operation) : List Char :=
  stem ++ ['_'] ++ opName op ++ ext

/-- Output channel count (`cpu_single.cpp` lines 136–137, `gpu.cu` lines
85–88). -/
def outputChannels : Operation → ℕ
  | .gaussian => 3
  | _ => 1

/-- Channel argument of the `stbi_write_png` calls of `cpu_mpi.cpp`
(line 117: 1, line 231: 1, line 355: `channels = 3`). -/
def mpiWriteChannels : Operation → ℕ
  | .grayscale => 1
  | .sobel => 1
  | .gaussian => 3

/-- C1 (amended): for the grayscale filter the sequential, OpenMP and CUDA
backends compute identical pixel values and the MPI backend differs from
them by at most 1 per channel (truncation against round-half-up of the same
luma sum). -/
theorem C1_backend_equivalence (r g b : ℕ)
    (hr : r ≤ 255) (hg : g ≤ 255) (hb : b ≤ 255) :
    ompGrayPx r g b = seqGrayPx r g b ∧
    gpuGrayPx r g b = seqGrayPx r g b ∧
    seqGrayPx r g b ≤ to_gray_uc r g b ∧
    to_gray_uc r g b ≤ seqGrayPx r g b + 1 := by
  refine ⟨rfl, rfl, ?_, ?_⟩ <;>
    (unfold to_gray_uc seqGrayPx lumaNum; omega)

/-- Witness for C1 at the concrete pixel (10, 200, 30). -/
theorem C1_backend_equivalence_witness :
    ((10 : ℕ) ≤ 255 ∧ (200 : ℕ) ≤ 255 ∧ (30 : ℕ) ≤ 255) ∧
    (ompGrayPx 10 200 30 = seqGrayPx 10 200 30 ∧
     gpuGrayPx 10 200 30 = seqGrayPx 10 200 30 ∧
     seqGrayPx 10 200 30 ≤ to_gray_uc 10 200 30 ∧
     to_gray_uc 10 200 30 ≤ seqGrayPx 10 200 30 + 1) :=
  ⟨⟨by decide, by decide, by decide⟩,
   C1_backend_equivalence 10 200 30 (by decide) (by decide) (by decide)⟩

/-- C1 counterexample: on the all-white 3×3 image under Sobel with one MPI
rank, the sequential output at pixel (1, 0) is 0 while the MPI output is
255 (zero-filled top halo), far beyond the ±1 tolerance of the claim. -/
theorem C1_counterexample :
    seqSobelPx (uniformRGB 255 255 255) 3 3 1 0 = 0 ∧
    mpiSobelPx (fun _ => to_gray_uc 255 255 255) zeroRow zeroRow 3 3 0 1 = 255 ∧
    ¬(mpiSobelPx (fun _ => to_gray_uc 255 255 255) zeroRow zeroRow 3 3 0 1 ≤
      seqSobelPx (uniformRGB 255 255 255) 3 3 1 0 + 1) := by
  refine ⟨seqSobelPx_uniform 255 255 255 3 3 1 0, mpiSobelPx_white_topRow, ?_⟩
  rw [mpiSobelPx_white_topRow, seqSobelPx_uniform]
  decide

/-- C2: the MPI row partition starts at row 0, is contiguous and ordered by
worker index, non-overlapping, its row counts sum to the image height, and
height 5 over 3 workers yields the sizes [2, 2, 1]. -/
theorem C2_partition (height size : ℕ) (h : 1 ≤ size) :
    rowStart height size 0 = 0 ∧
    (∀ r, rowStart height size (r + 1) =
      rowStart height size r + rowCount height size r) ∧
    (∑ r ∈ Finset.range size, rowCount height size r) = height ∧
    (∀ i j, i < j →
      rowStart height size i + rowCount height size i ≤ rowStart height size j) ∧
    (rowCount 5 3 0 = 2 ∧ rowCount 5 3 1 = 2 ∧ rowCount 5 3 2 = 1) := by
  refine ⟨rfl, fun r => rfl, ?_, ?_, by decide⟩
  · rw [← rowStart_sum]
    exact rowStart_size height size h
  · intro i j hij
    have h2 := rowStart_mono height size (Nat.succ_le_of_lt hij)
    rwa [rowStart] at h2

/-- Witness for C2 at height 5, three workers. -/
theorem C2_partition_witness :
    (1 : ℕ) ≤ 3 ∧
    (rowStart 5 3 0 = 0 ∧
     (∀ r, rowStart 5 3 (r + 1) = rowStart 5 3 r + rowCount 5 3 r) ∧
     (∑ r ∈ Finset.range 3, rowCount 5 3 r) = 5 ∧
     (∀ i j, i < j → rowStart 5 3 i + rowCount 5 3 i ≤ rowStart 5 3 j) ∧
     (rowCount 5 3 0 = 2 ∧ rowCount 5 3 1 = 2 ∧ rowCount 5 3 2 = 1)) :=
  ⟨by decide, C2_partition 5 3 (by decide)⟩

/-- C3 (amended): the MPI backend rounds the luma sum half-up with
clamping, exactly as the spec formula; the sequential, OpenMP and CUDA
backends truncate it instead, so on the 2×2 scenario they produce
76, 149, 29, 255 while the MPI backend produces the spec values
76, 150, 29, 255. -/
theorem C3_grayscale :
    (∀ r g b : ℕ, to_gray_uc r g b = specRoundGray r g b) ∧
    (∀ r g b : ℕ, seqGrayPx r g b = ⌊lumaQ r g b⌋₊ ∧
      ompGrayPx r g b = seqGrayPx r g b ∧ gpuGrayPx r g b = seqGrayPx r g b) ∧
    (seqGrayPx 255 0 0 = 76 ∧ seqGrayPx 0 255 0 = 149 ∧
      seqGrayPx 0 0 255 = 29 ∧ seqGrayPx 255 255 255 = 255) ∧
    (to_gray_uc 255 0 0 = 76 ∧ to_gray_uc 0 255 0 = 150 ∧
      to_gray_uc 0 0 255 = 29 ∧ to_gray_uc 255 255 255 = 255) :=
  ⟨to_gray_uc_eq_round, fun r g b => ⟨seqGrayPx_eq_floor r g b, rfl, rfl⟩,
   by decide, by decide⟩

/-- C3 counterexample: the sequential grayscale of pure green is 149, not
the rounded 150 demanded by the claim for every backend. -/
theorem C3_counterexample :
    seqGrayPx 0 255 0 = 149 ∧ specRoundGray 0 255 0 = 150 ∧
    seqGrayPx 0 255 0 ≠ specRoundGray 0 255 0 := by
  have h := to_gray_uc_eq_round 0 255 0
  refine ⟨by decide, ?_, ?_⟩
  · rw [← h]; decide
  · rw [← h]; decide

/-- C4 (amended): coordinate clamping holds in both axes for the
non-distributed sampling, and in the x axis for in-range rows of the MPI
sampler; but an MPI rank with no neighbour reads zero-filled halo rows
(never clamped local edge rows) for out-of-range y at the global edge. -/
theorem C4_boundary_clamp :
    (∀ (inB : ℤ → ℕ) (w h x y : ℤ), 1 ≤ w → 1 ≤ h →
      seqSampleNum inB w h (-1) y = seqSampleNum inB w h 0 y ∧
      seqSampleNum inB w h w y = seqSampleNum inB w h (w - 1) y ∧
      seqSampleNum inB w h x (-1) = seqSampleNum inB w h x 0 ∧
      seqSampleNum inB w h x h = seqSampleNum inB w h x (h - 1)) ∧
    (∀ (lg t b : ℤ → ℕ) (myrows width y : ℤ), 0 ≤ y → y < myrows →
      mpiGetGray lg t b myrows width y (-1) =
        mpiGetGray lg t b myrows width y 0 ∧
      mpiGetGray lg t b myrows width y width =
        mpiGetGray lg t b myrows width y (width - 1)) ∧
    (∀ (lg b : ℤ → ℕ) (myrows width x : ℤ),
      mpiGetGray lg zeroRow b myrows width (-1) x = 0) ∧
    (∀ (lg t : ℤ → ℕ) (myrows width x : ℤ), 0 ≤ myrows →
      mpiGetGray lg t zeroRow myrows width myrows x = 0) := by
  refine ⟨?_, ?_, ?_, ?_⟩
  · intro inB w h x y hw hh
    have hx0 : clampCoord (-1) w = clampCoord 0 w := by
      unfold clampCoord; omega
    have hxw : clampCoord w w = clampCoord (w - 1) w := by
      unfold clampCoord; omega
    have hy0 : clampCoord (-1) h = clampCoord 0 h := by
      unfold clampCoord; omega
    have hyh : clampCoord h h = clampCoord (h - 1) h := by
      unfold clampCoord; omega
    refine ⟨?_, ?_, ?_, ?_⟩ <;> unfold seqSampleNum seqSampleIdx
    · rw [hx0]
    · rw [hxw]
    · rw [hy0]
    · rw [hyh]
  · intro lg t b myrows width y hy0 hym
    have hx0 : clampCoord (-1) width = clampCoord 0 width := by
      unfold clampCoord; omega
    have hxw : clampCoord width width = clampCoord (width - 1) width := by
      unfold clampCoord; omega
    constructor <;>
      (unfold mpiGetGray;
       simp only [if_neg (show ¬y < 0 by omega),
         if_neg (show ¬myrows ≤ y by omega)])
    · rw [hx0]
    · rw [hxw]
  · intro lg b myrows width x
    unfold mpiGetGray
    rw [if_pos (show (-1 : ℤ) < 0 by omega)]
    rfl
  · intro lg t myrows width x hm
    unfold mpiGetGray
    rw [if_neg (show ¬myrows < 0 by omega), if_pos (le_refl myrows)]
    rfl

/-- Witness for C4 at concrete buffers and coordinates. -/
theorem C4_boundary_clamp_witness :
    ((1 : ℤ) ≤ 4 ∧ (0 : ℤ) ≤ 2 ∧ (2 : ℤ) < 5 ∧ (0 : ℤ) ≤ 5) ∧
    seqSampleNum (uniformRGB 9 9 9) 4 4 (-1) 2 =
      seqSampleNum (uniformRGB 9 9 9) 4 4 0 2 ∧
    mpiGetGray (fun _ => 7) zeroRow zeroRow 5 4 2 (-1) =
      mpiGetGray (fun _ => 7) zeroRow zeroRow 5 4 2 0 ∧
    mpiGetGray (fun _ => 7) zeroRow zeroRow 5 4 (-1) 0 = 0 ∧
    mpiGetGray (fun _ => 7) zeroRow zeroRow 5 4 5 0 = 0 :=
  ⟨⟨by decide, by decide, by decide, by decide⟩,
   (C4_boundary_clamp.1 (uniformRGB 9 9 9) 4 4 0 2 (by decide) (by decide)).1,
   (C4_boundary_clamp.2.1 (fun _ => 7) zeroRow zeroRow 5 4 2
     (by decide) (by decide)).1,
   C4_boundary_clamp.2.2.1 (fun _ => 7) zeroRow 5 4 0,
   C4_boundary_clamp.2.2.2 (fun _ => 7) zeroRow 5 4 0 (by decide)⟩

/-- C4 counterexample: at the global top edge the MPI sampler returns the
zero halo, not the value of row 0 as the claim requires. -/
theorem C4_counterexample :
    mpiGetGray (fun _ => to_gray_uc 255 255 255) zeroRow zeroRow 3 3 (-1) 1 = 0 ∧
    mpiGetGray (fun _ => to_gray_uc 255 255 255) zeroRow zeroRow 3 3 0 1 = 255 ∧
    mpiGetGray (fun _ => to_gray_uc 255 255 255) zeroRow zeroRow 3 3 (-1) 1 ≠
      mpiGetGray (fun _ => to_gray_uc 255 255 255) zeroRow zeroRow 3 3 0 1 := by
  decide

set_option maxRecDepth 40000 in
/-- C5: every kernel table is square of odd side and the full Gaussian
tables are normalised within tolerance, but the `GAUSSIAN_27x27` actually
compiled into the sequential backend is the one-element stub, whose sum is
0.00000102 — nowhere near 1. -/
theorem C5_kernel_invariants :
    (GAUSSIAN_9x9.length = kernelSizeGaussianGpu * kernelSizeGaussianGpu ∧
      Odd kernelSizeGaussianGpu) ∧
    (GAUSSIAN_27x27.length = kernelSizeGaussianSeq * kernelSizeGaussianSeq ∧
      Odd kernelSizeGaussianSeq) ∧
    (sobelXTable.length = kernelSizeSobel * kernelSizeSobel ∧
      Odd kernelSizeSobel) ∧
    |kernelSum GAUSSIAN_9x9 (10 ^ 10) - 1| ≤ 1 / 1000 ∧
    |kernelSum GAUSSIAN_27x27 (10 ^ 8) - 1| ≤ 1 / 1000 ∧
    GAUSSIAN_27x27_stub.length = kernelSizeGaussianSeq * kernelSizeGaussianSeq ∧
    ¬|kernelSum GAUSSIAN_27x27_stub (10 ^ 8) - 1| ≤ 1 / 1000 := by
  have h9 : GAUSSIAN_9x9.sum = 10000000011 := by decide
  have h27 : GAUSSIAN_27x27.sum = 99999934 := by decide
  have hstub : GAUSSIAN_27x27_stub.sum = 102 := by decide
  refine ⟨⟨by decide, by decide⟩, ⟨by decide, by decide⟩,
    ⟨by decide, by decide⟩, ?_, ?_, by decide, ?_⟩
  · unfold kernelSum
    rw [h9, abs_le]
    constructor <;> norm_num
  · unfold kernelSum
    rw [h27, abs_le]
    constructor <;> norm_num
  · unfold kernelSum
    rw [hstub, abs_le]
    norm_num

/-- C6 (amended): on a uniform image the sequential (and identical
OpenMP/CUDA) Sobel output vanishes at every pixel including boundaries, and
the MPI Sobel output vanishes at every pixel whose window lies within the
local rows; the global edge rows of the MPI backend are not covered (see
the counterexample). -/
theorem C6_sobel_uniform :
    (∀ (r g b : ℕ) (w h x y : ℤ), seqSobelPx (uniformRGB r g b) w h x y = 0) ∧
    (∀ (v : ℕ) (t b : ℤ → ℕ) (myrows width y x : ℤ), 1 ≤ y → y + 1 < myrows →
      mpiSobelPx (fun _ => v) t b myrows width y x = 0) :=
  ⟨seqSobelPx_uniform, fun v t b myrows width y x h1 h2 =>
    mpiSobelPx_const_interior v t b myrows width y x h1 h2⟩

/-- Witness for C6 at a uniform 3×3 image and an interior MPI row. -/
theorem C6_sobel_uniform_witness :
    ((1 : ℤ) ≤ 1 ∧ (1 : ℤ) + 1 < 3) ∧
    seqSobelPx (uniformRGB 5 6 7) 3 3 0 0 = 0 ∧
    mpiSobelPx (fun _ => 9) zeroRow zeroRow 3 3 1 1 = 0 :=
  ⟨⟨by decide, by decide⟩, C6_sobel_uniform.1 5 6 7 3 3 0 0,
   C6_sobel_uniform.2 9 zeroRow zeroRow 3 3 1 1 (by decide) (by decide)⟩

/-- C6 counterexample: on the all-white image the MPI Sobel output at the
global top row is 255, not 0. -/
theorem C6_counterexample :
    mpiSobelPx (fun _ => to_gray_uc 255 255 255) zeroRow zeroRow 3 3 0 1 = 255 ∧
    mpiSobelPx (fun _ => to_gray_uc 255 255 255) zeroRow zeroRow 3 3 0 1 ≠ 0 := by
  refine ⟨mpiSobelPx_white_topRow, ?_⟩
  rw [mpiSobelPx_white_topRow]
  decide

/-- C7: the single-process load loops skip a failed decode and keep
processing the remaining files (the failure contributes no image), while a
failed rank-0 decode in the MPI backend aborts the whole group with
code 1. -/
theorem C7_decode_failure :
    (∀ (α : Type) (pre post : List (Option α)),
      seqLoadBatch (pre ++ none :: post) =
        seqLoadBatch pre ++ seqLoadBatch post) ∧
    (∀ (α : Type) (img : α), mpiRank0Load (some img) = .ok img) ∧
    (∀ α : Type, mpiRank0Load (none : Option α) = .error 1) := by
  refine ⟨?_, fun α img => rfl, fun α => rfl⟩
  intro α pre post
  induction pre with
  | nil => simp [seqLoadBatch]
  | cons head tail ih =>
    cases head with
    | none => simpa [seqLoadBatch] using ih
    | some img => simpa [seqLoadBatch] using ih

/-- C8 (amended): the MPI backend sorts its extension-filtered path list
into lexicographic order; the single-process backends process the regular
files in raw directory-iteration order, a subsequence of the listing that
is neither filtered by extension nor sorted. -/
theorem C8_enumeration :
    (∀ listing : List DirEntry, (mpiEnumerate listing).Sorted (· ≤ ·)) ∧
    (∀ listing : List DirEntry, (mpiEnumerate listing).Perm
      ((listing.filter (fun e => isImageExt e.ext)).map DirEntry.path)) ∧
    (∀ listing : List DirEntry, (seqEnumerate listing).Sublist listing) :=
  ⟨fun _ => List.sorted_insertionSort _ _,
   fun _ => List.perm_insertionSort _ _,
   fun _ => List.filter_sublist _⟩

/-- C8 counterexample: on a directory iterated as [b.png, a.png, c.txt] the
sequential backend processes b.png before a.png (not lexicographic) and
includes c.txt, while the MPI backend processes [a.png, b.png] only. -/
theorem C8_counterexample :
    seqEnumerate sampleListing = sampleListing ∧
    ¬((seqEnumerate sampleListing).map DirEntry.path).Sorted (· ≤ ·) ∧
    mpiEnumerate sampleListing =
      [['a', '.', 'p', 'n', 'g'], ['b', '.', 'p', 'n', 'g']] ∧
    (seqEnumerate sampleListing).map DirEntry.path ≠ mpiEnumerate sampleListing ∧
    (⟨['c', '.', 't', 'x', 't'], ['.', 't', 'x', 't'], true⟩ : DirEntry) ∈
      seqEnumerate sampleListing ∧
    ['c', '.', 't', 'x', 't'] ∉ mpiEnumerate sampleListing := by
  decide

/-- C9 (amended): every backend writes one output per processed image with
channel count 1 for grayscale/sobel and 3 for gaussian, but the name always
ends in `.png` regardless of the input extension, and the MPI grayscale
output is named `<stem>_gray.png`, not `<stem>_grayscale.png`. -/
theorem C9_output_naming :
    (∀ stem op, seqOutName stem op = specOutName stem ['.', 'p', 'n', 'g'] op) ∧
    (∀ stem, mpiOutName stem .gaussian =
      specOutName stem ['.', 'p', 'n', 'g'] .gaussian) ∧
    (∀ stem, mpiOutName stem .sobel =
      specOutName stem ['.', 'p', 'n', 'g'] .sobel) ∧
    (∀ stem, mpiOutName stem .grayscale =
      stem ++ ['_', 'g', 'r', 'a', 'y', '.', 'p', 'n', 'g']) ∧
    outputChannels .grayscale = 1 ∧ outputChannels .sobel = 1 ∧
    outputChannels .gaussian = 3 ∧
    (∀ op, mpiWriteChannels op = outputChannels op) := by
  refine ⟨fun stem op => rfl, fun stem => ?_, fun stem => ?_, fun stem => rfl,
    rfl, rfl, rfl, fun op => ?_⟩
  · simp [mpiOutName, specOutName, opName]
  · simp [mpiOutName, specOutName, opName]
  · cases op <;> rfl

/-- C9 counterexample: for input `photo.jpg` under grayscale, the
single-process output is `photo_grayscale.png` and the MPI output is
`photo_gray.png`, neither of which is the claimed `photo_grayscale.jpg`. -/
theorem C9_counterexample :
    seqOutName ['p', 'h', 'o', 't', 'o'] .grayscale ≠
      specOutName ['p', 'h', 'o', 't', 'o'] ['.', 'j', 'p', 'g'] .grayscale ∧
    mpiOutName ['p', 'h', 'o', 't', 'o'] .grayscale ≠
      specOutName ['p', 'h', 'o', 't', 'o'] ['.', 'j', 'p', 'g'] .grayscale ∧
    mpiOutName ['p', 'h', 'o', 't', 'o'] .grayscale ≠
      specOutName ['p', 'h', 'o', 't', 'o'] ['.', 'p', 'n', 'g'] .grayscale := by
  decide

/-- C10: the halo branches of the MPI sampling helpers index the halo
vectors with the unclamped column, so the convolution at corner pixels
reads out of bounds: Sobel at pixel (0,0) with kernel offset (-1,-1) reads
`top[-1]`, and Gaussian at pixel (0,0) with offset (-4,-4) reads
`top[-12]`; in-range halo reads stay in bounds. -/
theorem C10_halo_oob :
    sobelReadAccess 25 100 (0 + (-1)) (0 + (-1)) = .top (-1) ∧
    sobelAccessInBounds 25 100 (.top (-1)) = false ∧
    gaussReadAccess 25 100 (0 + (-4)) (0 + (-4)) 0 = .top (-12) ∧
    gaussAccessInBounds 25 100 (.top (-12)) = false ∧
    sobelAccessInBounds 25 100 (sobelReadAccess 25 100 (-1) 5) = true ∧
    gaussAccessInBounds 25 100 (gaussReadAccess 25 100 (-1) 5 2) = true := by
  decide

end ImageBench


